import Mathlib

/-!
Formal model of `examples/python_client.py` from the fossibot-mqtt-bridge
repository: a small MQTT client that subscribes to device topics, renders
incoming state messages, and publishes command messages driven by an
interactive menu.  Side effects (publishes, subscriptions, prints, the
paho loop-stop and disconnect calls) are modelled as an explicit trace of
`Effect` values; Python exceptions are modelled by `PyError`.
-/

namespace FossibotClient

/-- JSON values as produced by Python `json.loads` (floats are not modelled;
no claim involves a float payload). -/
inductive Json where
  | null : Json
  | bool : Bool → Json
  | int : Int → Json
  | str : String → Json
  | arr : List Json → Json
  | obj : List (String × Json) → Json
deriving Inhabited

/-- JSON whitespace accepted between tokens by `json.loads`. -/
def isWsChar (c : Char) : Bool :=
  c = ' ' || c = '\t' || c = '\n' || c = '\r'

def skipWs (cs : List Char) : List Char := cs.dropWhile isWsChar

/-- Parse the body of a JSON string after the opening quote, up to and
including the closing quote.  Raw control characters are rejected, and the
common escape sequences are handled. -/
def parseStringBody : List Char → Option (String × List Char)
  | [] => none
  | '"' :: rest => some ("", rest)
  | '\\' :: e :: rest =>
    (match e with
     | '"' => some '"'
     | '\\' => some '\\'
     | '/' => some '/'
     | 'n' => some '\n'
     | 't' => some '\t'
     | 'r' => some '\r'
     | _ => none).bind fun c =>
      (parseStringBody rest).map fun (p : String × List Char) =>
        (String.mk (c :: p.1.data), p.2)
  | c :: rest =>
    if c.toNat < 32 then none
    else
      (parseStringBody rest).map fun (p : String × List Char) =>
        (String.mk (c :: p.1.data), p.2)

def digitsToNat (ds : List Char) : Nat :=
  ds.foldl (fun a c => a * 10 + (c.toNat - 48)) 0

/-- Parse a JSON integer literal; inputs that continue as a float
(`.`, `e`, `E`) are outside the modelled subset and rejected. -/
def parseNumber (cs : List Char) : Option (Json × List Char) :=
  let p := match cs with
    | '-' :: r => (true, r)
    | _ => (false, cs)
  let ds := p.2.takeWhile Char.isDigit
  let rest := p.2.dropWhile Char.isDigit
  if ds.isEmpty then none
  else
    match rest with
    | '.' :: _ => none
    | 'e' :: _ => none
    | 'E' :: _ => none
    | _ =>
      let n : Int := Int.ofNat (digitsToNat ds)
      some (.int (if p.1 then -n else n), rest)

mutual

def parseValue : Nat → List Char → Option (Json × List Char)
  | 0, _ => none
  | fuel + 1, cs =>
    match skipWs cs with
    | 't' :: 'r' :: 'u' :: 'e' :: rest => some (.bool true, rest)
    | 'f' :: 'a' :: 'l' :: 's' :: 'e' :: rest => some (.bool false, rest)
    | 'n' :: 'u' :: 'l' :: 'l' :: rest => some (.null, rest)
    | '"' :: rest => (parseStringBody rest).map fun p => (.str p.1, p.2)
    | '{' :: rest =>
      (match skipWs rest with
       | '}' :: rem => some (.obj [], rem)
       | _ => (parseMembers fuel rest).map fun p => (.obj p.1, p.2))
    | '[' :: rest =>
      (match skipWs rest with
       | ']' :: rem => some (.arr [], rem)
       | _ => (parseElements fuel rest).map fun p => (.arr p.1, p.2))
    | other => parseNumber other

def parseMembers : Nat → List Char → Option (List (String × Json) × List Char)
  | 0, _ => none
  | fuel + 1, cs =>
    match skipWs cs with
    | '"' :: rest =>
      (parseStringBody rest).bind fun pk =>
        match skipWs pk.2 with
        | ':' :: rem2 =>
          (parseValue fuel rem2).bind fun pv =>
            match skipWs pv.2 with
            | ',' :: rem4 =>
              (parseMembers fuel rem4).map fun pm => ((pk.1, pv.1) :: pm.1, pm.2)
            | '}' :: rem4 => some ([(pk.1, pv.1)], rem4)
            | _ => none
        | _ => none
    | _ => none

def parseElements : Nat → List Char → Option (List Json × List Char)
  | 0, _ => none
  | fuel + 1, cs =>
    (parseValue fuel cs).bind fun pv =>
      match skipWs pv.2 with
      | ',' :: rem2 => (parseElements fuel rem2).map fun pe => (pv.1 :: pe.1, pe.2)
      | ']' :: rem2 => some ([pv.1], rem2)
      | _ => none

end

/-- Model of Python `json.loads` on a UTF-8 payload: parse one value and
require only whitespace to remain, otherwise fail (`json.JSONDecodeError`). -/
def jsonParse (s : String) : Option Json :=
  match parseValue (s.length + 1) s.data with
  | some p => if (skipWs p.2).isEmpty then some p.1 else none
  | none => none

def jsonEscapeChar (c : Char) : String :=
  if c = '"' then "\\\""
  else if c = '\\' then "\\\\"
  else if c = '\n' then "\\n"
  else if c = '\t' then "\\t"
  else if c = '\r' then "\\r"
  else String.mk [c]

def jsonEscape (s : String) : String :=
  String.join (s.data.map jsonEscapeChar)

mutual

/-- Model of Python `json.dumps` with its default separators: items joined
by a comma-space, keys followed by colon-space, insertion order kept. -/
def dumps : Json → String
  | .null => "null"
  | .bool true => "true"
  | .bool false => "false"
  | .int n => toString n
  | .str s => "\"" ++ jsonEscape s ++ "\""
  | .arr xs => "[" ++ dumpsElements xs ++ "]"
  | .obj kvs => "\x7b" ++ dumpsMembers kvs ++ "\x7d"

def dumpsElements : List Json → String
  | [] => ""
  | [x] => dumps x
  | x :: xs => dumps x ++ ", " ++ dumpsElements xs

def dumpsMembers : List (String × Json) → String
  | [] => ""
  | [kv] => "\"" ++ jsonEscape kv.1 ++ "\": " ++ dumps kv.2
  | kv :: kvs => "\"" ++ jsonEscape kv.1 ++ "\": " ++ dumps kv.2 ++ ", " ++ dumpsMembers kvs

end

mutual

/-- Python `repr` of a value decoded from JSON (used by `str` on
containers); scalars match CPython output. -/
def pyRepr : Json → String
  | .null => "None"
  | .bool true => "True"
  | .bool false => "False"
  | .int n => toString n
  | .str s => "'" ++ s ++ "'"
  | .arr xs => "[" ++ pyReprElements xs ++ "]"
  | .obj kvs => "\x7b" ++ pyReprMembers kvs ++ "\x7d"

def pyReprElements : List Json → String
  | [] => ""
  | [x] => pyRepr x
  | x :: xs => pyRepr x ++ ", " ++ pyReprElements xs

def pyReprMembers : List (String × Json) → String
  | [] => ""
  | [kv] => "'" ++ kv.1 ++ "': " ++ pyRepr kv.2
  | kv :: kvs => "'" ++ kv.1 ++ "': " ++ pyRepr kv.2 ++ ", " ++ pyReprMembers kvs

end

/-- Python `str` of a decoded JSON value, as interpolated by an f-string. -/
def pyStr (v : Json) : String :=
  match v with
  | .str s => s
  | _ => pyRepr v

/-- Python truthiness of a decoded JSON value (`'ON' if x else 'OFF'`). -/
def pyTruthy : Json → Bool
  | .null => false
  | .bool b => b
  | .int n => n != 0
  | .str s => !s.isEmpty
  | .arr xs => !xs.isEmpty
  | .obj kvs => !kvs.isEmpty

/-- Python exceptions that the script can raise or observe. -/
inductive PyError where
  | jsonDecodeError : PyError
  | keyError : String → PyError
  | typeError : PyError
  | valueError : PyError
  | eofError : PyError
  | keyboardInterrupt : PyError
deriving Repr, DecidableEq

/-- One observable side effect of the script. -/
inductive Effect where
  | publish : String → String → Nat → Effect
  | subscribe : String → Effect
  | print : String → Effect
  | loopStop : Effect
  | disconnect : Effect
deriving Repr, DecidableEq

def MQTT_BROKER : String := "localhost"

def MQTT_PORT : Nat := 1883

def DEVICE_MAC : String := "7C2C67AB5F0E"

def stateTopic : String := "fossibot/" ++ DEVICE_MAC ++ "/state"

def availabilityTopic : String := "fossibot/" ++ DEVICE_MAC ++ "/availability"

def bridgeStatusTopic : String := "fossibot/bridge/status"

def commandTopic : String := "fossibot/" ++ DEVICE_MAC ++ "/command"

/-- The `on_connect` callback: prints, then subscribes to the three fixed
topics, then prints again. -/
def on_connect (rc : Nat) : List Effect :=
  [ .print ("Connected with result code " ++ toString rc),
    .subscribe stateTopic,
    .subscribe availabilityTopic,
    .subscribe bridgeStatusTopic,
    .print "Subscribed to topics" ]

/-- Python `str.endswith`. -/
def strEndsWith (s suffix : String) : Bool :=
  List.isSuffixOf suffix.data s.data

/-- Lookup in a decoded JSON object; `json.loads` keeps the last value of a
duplicated key, so the last binding wins. -/
def lookupLast (kvs : List (String × Json)) (k : String) : Option Json :=
  ((kvs.filter fun kv => kv.1 = k).getLast?).map fun kv => kv.2

/-- Python subscription `v[k]` on a decoded JSON value: `KeyError` on a
missing key, `TypeError` on a non-dict. -/
def pyGet (v : Json) (k : String) : Except PyError Json :=
  match v with
  | .obj kvs =>
    match lookupLast kvs k with
    | some x => .ok x
    | none => .error (.keyError k)
  | _ => .error .typeError

/-- Result of running the `on_message` callback: the effects emitted before
returning or before an exception escaped, and that exception if any. -/
structure HandlerResult where
  effects : List Effect
  exc : Option PyError
deriving Repr, DecidableEq

/-- The `on_message` callback, branch for branch from the source: an
`endswith` chain over the topic, with `json.loads` and dict subscriptions
that can raise; effects already printed before a raise are kept. -/
def on_message (topic : String) (payload : String) : HandlerResult :=
  if strEndsWith topic "/state" then
    match jsonParse payload with
    | none => ⟨[], some .jsonDecodeError⟩
    | some state =>
      let header := Effect.print "\n📊 Device State Update:"
      match pyGet state "soc" with
      | .error e => ⟨[header], some e⟩
      | .ok soc =>
        let l1 := Effect.print ("  Battery: " ++ pyStr soc ++ "%")
        match pyGet state "usbOutput" with
        | .error e => ⟨[header, l1], some e⟩
        | .ok usb =>
          let l2 := Effect.print ("  USB: " ++ if pyTruthy usb then "ON" else "OFF")
          match pyGet state "acOutput" with
          | .error e => ⟨[header, l1, l2], some e⟩
          | .ok ac =>
            let l3 := Effect.print ("  AC: " ++ if pyTruthy ac then "ON" else "OFF")
            match pyGet state "timestamp" with
            | .error e => ⟨[header, l1, l2, l3], some e⟩
            | .ok ts =>
              ⟨[header, l1, l2, l3, .print ("  Time: " ++ pyStr ts)], none⟩
  else if strEndsWith topic "/availability" then
    ⟨[.print ("\n🔌 Device: " ++ payload)], none⟩
  else if topic = bridgeStatusTopic then
    match jsonParse payload with
    | none => ⟨[], some .jsonDecodeError⟩
    | some status =>
      match pyGet status "status" with
      | .error e => ⟨[], some e⟩
      | .ok st =>
        match pyGet status "version" with
        | .error e => ⟨[], some e⟩
        | .ok ver =>
          ⟨[.print ("\n🌉 Bridge: " ++ pyStr st ++ " (v" ++ pyStr ver ++ ")")], none⟩
  else ⟨[], none⟩

def usbOnPayload : String := dumps (.obj [("action", .str "usb_on")])

def usbOffPayload : String := dumps (.obj [("action", .str "usb_off")])

def turn_usb_on : List Effect :=
  [ .publish commandTopic usbOnPayload 1, .print "✅ Sent: USB ON" ]

def turn_usb_off : List Effect :=
  [ .publish commandTopic usbOffPayload 1, .print "✅ Sent: USB OFF" ]

def chargingCurrentPayload (amperes : Int) : String :=
  dumps (.obj [("action", .str "set_charging_current"), ("amperes", .int amperes)])

/-- `set_charging_current`: the guard `not 1 <= amperes <= 20` prints an
error and returns; otherwise the command is serialized and published. -/
def set_charging_current (amperes : Int) : List Effect :=
  if 1 ≤ amperes ∧ amperes ≤ 20 then
    [ .publish commandTopic (chargingCurrentPayload amperes) 1,
      .print ("✅ Sent: Set charging current to " ++ toString amperes ++ "A") ]
  else
    [ .print "❌ Error: Amperes must be 1-20" ]

/-- Characters stripped by Python `str.strip()` (ASCII whitespace). -/
def isPySpace (c : Char) : Bool :=
  c = ' ' || c = '\t' || c = '\n' || c = '\r' || c = '\x0b' || c = '\x0c'

/-- Python `str.strip()`. -/
def pyStrip (s : String) : String :=
  String.mk (((s.data.dropWhile isPySpace).reverse.dropWhile isPySpace).reverse)

/-- Python `str.lower()` (ASCII range suffices for the menu tokens). -/
def pyLower (s : String) : String :=
  String.mk (s.data.map Char.toLower)

def noDoubleUnderscore : List Char → Bool
  | '_' :: '_' :: _ => false
  | _ :: rest => noDoubleUnderscore rest
  | [] => true

/-- Digit run accepted by Python `int()` after sign: nonempty, starts and
ends with a digit, underscores only singly and between digits. -/
def validIntDigits (ds : List Char) : Bool :=
  match ds with
  | [] => false
  | d :: _ =>
    d.isDigit &&
      (match ds.getLast? with
       | some l => l.isDigit
       | none => false) &&
      ds.all (fun c => c.isDigit || c = '_') &&
      noDoubleUnderscore ds

def intDigitsVal (ds : List Char) : Nat :=
  ds.foldl (fun a c => if c = '_' then a else a * 10 + (c.toNat - 48)) 0

/-- Model of the Python `int()` builtin on a base-10 string: surrounding
whitespace stripped, optional sign, digit run; `none` models the
`ValueError` raise. -/
def pyInt (s : String) : Option Int :=
  let cs := ((s.data.dropWhile isPySpace).reverse.dropWhile isPySpace).reverse
  match cs with
  | '-' :: rest =>
    if validIntDigits rest then some (-(Int.ofNat (intDigitsVal rest))) else none
  | '+' :: rest =>
    if validIntDigits rest then some (Int.ofNat (intDigitsVal rest)) else none
  | _ =>
    if validIntDigits cs then some (Int.ofNat (intDigitsVal cs)) else none

/-- One interaction with stdin: either `input()` returns a line, or the
operator sends an interrupt signal while `input()` is blocking. -/
inductive InEvent where
  | line : String → InEvent
  | interrupt : InEvent
deriving Repr, DecidableEq

/-- How the `try` body of the interactive loop ends: `break` on quit, a
caught `KeyboardInterrupt`, or an uncaught exception. -/
inductive ExitKind where
  | quit : ExitKind
  | interrupted : ExitKind
  | error : PyError → ExitKind
deriving Repr, DecidableEq

/-- The menu prints of one loop iteration, ending with the `input` prompt. -/
def menuEffects : List Effect :=
  [ .print "\nCommands:",
    .print "  1 - Turn USB ON",
    .print "  2 - Turn USB OFF",
    .print "  3 - Set charging current",
    .print "  q - Quit",
    .print "\nEnter command: " ]

def amperesPrompt : Effect := .print "Enter amperes (1-20): "

/-- The `while True` body of the interactive menu, run over a stream of
stdin events: strip the line, branch on "1"/"2"/"3", compare the quit
token lowercased, otherwise print an error and continue.  An exhausted
stream models `input()` raising `EOFError`. -/
def interactiveLoop : List InEvent → List Effect × ExitKind
  | [] => (menuEffects, .error .eofError)
  | .interrupt :: _ => (menuEffects, .interrupted)
  | .line s :: rest =>
    if pyStrip s = "1" then
      (menuEffects ++ turn_usb_on ++ (interactiveLoop rest).1, (interactiveLoop rest).2)
    else if pyStrip s = "2" then
      (menuEffects ++ turn_usb_off ++ (interactiveLoop rest).1, (interactiveLoop rest).2)
    else if pyStrip s = "3" then
      match rest with
      | [] => (menuEffects ++ [amperesPrompt], .error .eofError)
      | .interrupt :: _ => (menuEffects ++ [amperesPrompt], .interrupted)
      | .line t :: rest2 =>
        match pyInt t with
        | none => (menuEffects ++ [amperesPrompt], .error .valueError)
        | some a =>
          (menuEffects ++ [amperesPrompt] ++ set_charging_current a ++
             (interactiveLoop rest2).1,
           (interactiveLoop rest2).2)
    else if pyLower (pyStrip s) = "q" then
      (menuEffects, .quit)
    else
      (menuEffects ++ [.print "Invalid command"] ++ (interactiveLoop rest).1,
       (interactiveLoop rest).2)

/-- The `finally` block: `client.loop_stop()`, `client.disconnect()`,
`print("Disconnected")`. -/
def shutdownEffects : List Effect :=
  [ .loopStop, .disconnect, .print "Disconnected" ]

/-- The whole `try`/`except KeyboardInterrupt`/`finally` region: run the
interactive loop, print the shutdown banner when the interrupt was caught,
and always append the `finally` effects.  An uncaught exception is recorded
in the `ExitKind` and re-raised after the `finally` block. -/
def mainRun (events : List InEvent) : List Effect × ExitKind :=
  match interactiveLoop events with
  | (fx, .interrupted) =>
    (fx ++ [.print "\n\nShutting down..."] ++ shutdownEffects, .interrupted)
  | (fx, ek) => (fx ++ shutdownEffects, ek)

/-- Recognizer for subscription effects, used to state the subscription
claims. -/
def isSubscribeEffect : Effect → Bool
  | .subscribe _ => true
  | _ => false

/-- The success confirmation of `set_charging_current` is never the error
message: the two strings have different lengths whatever the amperes
rendering is. -/
theorem sent_confirmation_ne_error_message (x : String) :
    "✅ Sent: Set charging current to " ++ x ++ "A" ≠ "❌ Error: Amperes must be 1-20" := by
  intro h
  have h2 := congrArg String.length h
  rw [String.length_append, String.length_append] at h2
  have e1 : ("✅ Sent: Set charging current to " : String).length = 32 := by decide
  have e2 : ("A" : String).length = 1 := by decide
  have e3 : ("❌ Error: Amperes must be 1-20" : String).length = 29 := by decide
  rw [e1, e2, e3] at h2
  omega

/-- Claim C1: for every integer amperes outside the range [1, 20],
`set_charging_current` prints exactly one error message and publishes
nothing — no message is sent to the broker and no command is built. -/
theorem C1_out_of_range_rejected_locally (a : Int) (h : ¬ (1 ≤ a ∧ a ≤ 20)) :
    set_charging_current a = [.print "❌ Error: Amperes must be 1-20"] := by
  unfold set_charging_current
  rw [if_neg h]

/-- Witness for C1 at amperes = 21. -/
theorem C1_witness :
    ¬ (1 ≤ (21 : Int) ∧ (21 : Int) ≤ 20) ∧
      set_charging_current 21 = [.print "❌ Error: Amperes must be 1-20"] :=
  ⟨by decide, C1_out_of_range_rejected_locally 21 (by decide)⟩

/-- Claim C2: for every integer amperes in [1, 20], `set_charging_current`
produces exactly one publish, to the command topic at QoS 1, whose payload
serializes the JSON object with action `set_charging_current` and the given
amperes, plus the confirmation print — and the error message is not among
the produced effects. -/
theorem C2_in_range_publishes_once (a : Int) (h1 : 1 ≤ a) (h2 : a ≤ 20) :
    set_charging_current a =
      [ .publish commandTopic
          (dumps (.obj [("action", .str "set_charging_current"), ("amperes", .int a)])) 1,
        .print ("✅ Sent: Set charging current to " ++ toString a ++ "A") ] ∧
    Effect.print "❌ Error: Amperes must be 1-20" ∉ set_charging_current a := by
  have e : set_charging_current a =
      [ .publish commandTopic
          (dumps (.obj [("action", .str "set_charging_current"), ("amperes", .int a)])) 1,
        .print ("✅ Sent: Set charging current to " ++ toString a ++ "A") ] := by
    unfold set_charging_current chargingCurrentPayload
    rw [if_pos ⟨h1, h2⟩]
  refine ⟨e, ?_⟩
  intro hmem
  rw [e] at hmem
  simp only [List.mem_cons, List.not_mem_nil, or_false] at hmem
  rcases hmem with hmem | hmem
  · exact Effect.noConfusion hmem
  · exact sent_confirmation_ne_error_message (toString a)
      ((Effect.print.injEq _ _).mp hmem).symm

/-- Witness for C2 at amperes = 5. -/
theorem C2_witness :
    set_charging_current 5 =
      [ .publish commandTopic
          (dumps (.obj [("action", .str "set_charging_current"), ("amperes", .int 5)])) 1,
        .print ("✅ Sent: Set charging current to " ++ toString (5 : Int) ++ "A") ] :=
  (C2_in_range_publishes_once 5 (by decide) (by decide)).1

/-- Claim C3 (failing input): a malformed, non-JSON payload on the state
topic makes `on_message` raise `json.JSONDecodeError` before printing
anything — there is no parse-failure path that logs and discards, contrary
to the specified dispatch behavior. -/
theorem C3_malformed_state_payload_raises :
    on_message stateTopic "not json" = ⟨[], some .jsonDecodeError⟩ := by decide

/-- Claim C5: `turn_usb_on` and `turn_usb_off` each produce exactly one
publish to the command topic at QoS 1 whose payload serializes the JSON
object with action `usb_on` respectively `usb_off` (the payloads parse back
to exactly those objects), plus one confirmation print; both are constants,
independent of any prior state. -/
theorem C5_usb_commands_publish_once :
    turn_usb_on =
      [ .publish commandTopic (dumps (.obj [("action", .str "usb_on")])) 1,
        .print "✅ Sent: USB ON" ] ∧
    turn_usb_off =
      [ .publish commandTopic (dumps (.obj [("action", .str "usb_off")])) 1,
        .print "✅ Sent: USB OFF" ] ∧
    jsonParse (dumps (.obj [("action", .str "usb_on")])) =
      some (.obj [("action", .str "usb_on")]) ∧
    jsonParse (dumps (.obj [("action", .str "usb_off")])) =
      some (.obj [("action", .str "usb_off")]) :=
  ⟨rfl, rfl, rfl, rfl⟩

/-- Claim C7: every run of the `on_connect` callback subscribes to exactly
the three fixed topics — device state, device availability, bridge status —
in that order and to no others, whatever the connect result code is. -/
theorem C7_subscribes_exactly_three_topics (rc : Nat) :
    (on_connect rc).filter isSubscribeEffect =
      [ .subscribe stateTopic, .subscribe availabilityTopic,
        .subscribe bridgeStatusTopic ] := rfl

/-- Claim C6: every well-formed state message on the device state topic —
a JSON object with integer `soc`, boolean `usbOutput` and `acOutput`, and a
string `timestamp` — is rendered as the battery percent, USB as ON/OFF, AC
as ON/OFF and the timestamp, without raising and without publishing
anything in response. -/
theorem C6_state_message_rendered (payload : String) (kvs : List (String × Json))
    (soc : Int) (usb ac : Bool) (ts : String)
    (hp : jsonParse payload = some (.obj kvs))
    (hsoc : lookupLast kvs "soc" = some (.int soc))
    (husb : lookupLast kvs "usbOutput" = some (.bool usb))
    (hac : lookupLast kvs "acOutput" = some (.bool ac))
    (hts : lookupLast kvs "timestamp" = some (.str ts)) :
    on_message stateTopic payload =
      ⟨[ .print "\n📊 Device State Update:",
         .print ("  Battery: " ++ toString soc ++ "%"),
         .print ("  USB: " ++ if usb then "ON" else "OFF"),
         .print ("  AC: " ++ if ac then "ON" else "OFF"),
         .print ("  Time: " ++ ts) ], none⟩ ∧
    ∀ t p q, Effect.publish t p q ∉ (on_message stateTopic payload).effects := by
  have hend : strEndsWith stateTopic "/state" = true := by decide
  have e : on_message stateTopic payload =
      ⟨[ .print "\n📊 Device State Update:",
         .print ("  Battery: " ++ toString soc ++ "%"),
         .print ("  USB: " ++ if usb then "ON" else "OFF"),
         .print ("  AC: " ++ if ac then "ON" else "OFF"),
         .print ("  Time: " ++ ts) ], none⟩ := by
    unfold on_message
    rw [hend]
    simp only [if_true, hp, pyGet, hsoc, husb, hac, hts, pyStr, pyRepr, pyTruthy]
  refine ⟨e, ?_⟩
  intro t p q hmem
  rw [e] at hmem
  simp only [List.mem_cons, List.not_mem_nil, or_false] at hmem
  rcases hmem with h | h | h | h | h <;> exact Effect.noConfusion h

/-- Witness for C6 at the example payload of the claim. -/
theorem C6_witness :
    on_message stateTopic
        "\x7b\"soc\": 87, \"usbOutput\": true, \"acOutput\": false, \"timestamp\": \"T\"\x7d" =
      ⟨[ .print "\n📊 Device State Update:",
         .print ("  Battery: " ++ toString (87 : Int) ++ "%"),
         .print ("  USB: " ++ if true then "ON" else "OFF"),
         .print ("  AC: " ++ if false then "ON" else "OFF"),
         .print ("  Time: " ++ "T") ], none⟩ :=
  (C6_state_message_rendered
    "\x7b\"soc\": 87, \"usbOutput\": true, \"acOutput\": false, \"timestamp\": \"T\"\x7d"
    [("soc", .int 87), ("usbOutput", .bool true), ("acOutput", .bool false),
     ("timestamp", .str "T")]
    87 true false "T" (by rfl) (by rfl) (by rfl) (by rfl) (by rfl)).1

/-- Claim C8: the three dispatch conditions of `on_message` are pairwise
mutually exclusive — no topic both ends in `/state` and ends in
`/availability`, and the bridge status topic ends in neither — and a
message on a topic matching none of them produces no effect at all. -/
theorem C8_dispatch_exclusive_and_ignores_others (topic payload : String) :
    (¬ (strEndsWith topic "/state" = true ∧ strEndsWith topic "/availability" = true)) ∧
    (topic = bridgeStatusTopic →
      strEndsWith topic "/state" = false ∧ strEndsWith topic "/availability" = false) ∧
    (strEndsWith topic "/state" = false → strEndsWith topic "/availability" = false →
      topic ≠ bridgeStatusTopic → on_message topic payload = ⟨[], none⟩) := by
  refine ⟨?_, ?_, ?_⟩
  · rintro ⟨h1, h2⟩
    rw [strEndsWith, List.isSuffixOf_iff_suffix] at h1 h2
    rcases List.suffix_or_suffix_of_suffix h1 h2 with h | h
    · exact absurd h (by decide)
    · exact absurd h (by decide)
  · intro h
    subst h
    exact ⟨by decide, by decide⟩
  · intro h1 h2 h3
    unfold on_message
    rw [h1, h2, if_neg h3]
    rfl

/-- Witness for C8 on a topic outside the subscription set. -/
theorem C8_witness :
    on_message "some/other/topic" "x" = ⟨[], none⟩ :=
  (C8_dispatch_exclusive_and_ignores_others "some/other/topic" "x").2.2
    (by decide) (by decide) (by decide)

/-- The command functions never emit the loop-stop effect. -/
theorem loopStop_not_in_cmd (a : Int) : Effect.loopStop ∉ set_charging_current a := by
  unfold set_charging_current
  split <;> simp

/-- The command functions never emit the disconnect effect. -/
theorem disconnect_not_in_cmd (a : Int) : Effect.disconnect ∉ set_charging_current a := by
  unfold set_charging_current
  split <;> simp

/-- The interactive loop itself never stops the background loop and never
disconnects; those effects belong to the cleanup block alone. -/
theorem shutdown_not_in_loop (events : List InEvent) :
    Effect.loopStop ∉ (interactiveLoop events).1 ∧
    Effect.disconnect ∉ (interactiveLoop events).1 := by
  induction events using interactiveLoop.induct <;>
    · rw [interactiveLoop.eq_def]
      simp_all [menuEffects, turn_usb_on, turn_usb_off, amperesPrompt,
        loopStop_not_in_cmd, disconnect_not_in_cmd]

/-- Claim C4: on every exit path of the interactive loop — normal quit,
interrupt, or unhandled error — the trace ends by stopping the background
loop, then exactly one disconnect, then the termination confirmation, with
no publish, subscription, stop or disconnect occurring after that suffix
begins, and no disconnect anywhere before it. -/
theorem C4_cleanup_on_every_exit (events : List InEvent) :
    ∃ pre, (mainRun events).1 =
        pre ++ [Effect.loopStop, Effect.disconnect, Effect.print "Disconnected"] ∧
      Effect.loopStop ∉ pre ∧ Effect.disconnect ∉ pre ∧
      ((mainRun events).1).count Effect.disconnect = 1 := by
  have hs := shutdown_not_in_loop events
  unfold mainRun
  cases hIE : interactiveLoop events with
  | mk fx ek =>
    rw [hIE] at hs
    simp only at hs
    cases ek with
    | interrupted =>
      refine ⟨fx ++ [Effect.print "\n\nShutting down..."],
        by simp [shutdownEffects], ?_, ?_, ?_⟩
      · simp [hs.1]
      · simp [hs.2]
      · simp [shutdownEffects, List.count_append, List.count_eq_zero.mpr hs.2]
    | quit =>
      refine ⟨fx, by simp [shutdownEffects], hs.1, hs.2, ?_⟩
      simp [shutdownEffects, List.count_append, List.count_eq_zero.mpr hs.2]
    | error e =>
      refine ⟨fx, by simp [shutdownEffects], hs.1, hs.2, ?_⟩
      simp [shutdownEffects, List.count_append, List.count_eq_zero.mpr hs.2]

/-- Claim C9: choosing menu item 3 and then entering a line that does not
parse as an integer ends the interactive loop with an uncaught
`ValueError`, publishing nothing — the trace holds only the menu prints and
the amperes prompt — and the cleanup block still stops the loop,
disconnects and prints the confirmation. -/
theorem C9_nonint_amperes_terminates (s t : String) (rest : List InEvent)
    (hs3 : pyStrip s = "3") (ht : pyInt t = none) :
    mainRun (.line s :: .line t :: rest) =
      (menuEffects ++ [amperesPrompt] ++ shutdownEffects, .error .valueError) := by
  have hloop : interactiveLoop (.line s :: .line t :: rest) =
      (menuEffects ++ [amperesPrompt], .error .valueError) := by
    rw [interactiveLoop.eq_def]
    simp [hs3, ht]
  unfold mainRun
  rw [hloop]

/-- Witness for C9 with the non-integer line "abc". -/
theorem C9_witness :
    mainRun [.line "3", .line "abc"] =
      (menuEffects ++ [amperesPrompt] ++ shutdownEffects, .error .valueError) :=
  C9_nonint_amperes_terminates "3" "abc" [] (by decide) (by decide)

/-- Claim C10: menu input is stripped before dispatch and the quit token is
compared case-insensitively — "Q" and " q " both quit normally — while any
stripped input other than "1", "2", "3" or a case variant of "q" prints
"Invalid command" and the loop continues without publishing. -/
theorem C10_menu_strip_and_quit_case_insensitive :
    mainRun [.line "Q"] = (menuEffects ++ shutdownEffects, .quit) ∧
    mainRun [.line " q "] = (menuEffects ++ shutdownEffects, .quit) ∧
    ∀ s rest, pyStrip s ≠ "1" → pyStrip s ≠ "2" → pyStrip s ≠ "3" →
      pyLower (pyStrip s) ≠ "q" →
      interactiveLoop (.line s :: rest) =
        (menuEffects ++ [.print "Invalid command"] ++ (interactiveLoop rest).1,
         (interactiveLoop rest).2) := by
  refine ⟨by decide, by decide, ?_⟩
  intro s rest h1 h2 h3 h4
  rw [interactiveLoop.eq_def]
  simp [h1, h2, h3, h4]

/-- Witness for C10 with the unrecognized input "x". -/
theorem C10_witness :
    interactiveLoop [.line "x"] =
      (menuEffects ++ [.print "Invalid command"] ++ (interactiveLoop []).1,
       (interactiveLoop []).2) :=
  C10_menu_strip_and_quit_case_insensitive.2.2 "x" []
    (by decide) (by decide) (by decide) (by decide)

end FossibotClient
